import Mathlib

/-!
Verification of the builtin primitive-operation layer of the CUE evaluator
(internal/core/compile/builtin.go): the `len`, `close`, `and`, `or` builtins
and the integer division family `div`, `mod`, `quo`, `rem`.

The value model (adt.Value, adt.Vertex, adt.Kind, labels, markers) lives in
the adt package, which is not part of the analysed sources; it is modelled
from the specification, section 3.  The builtin bodies themselves are
translated directly from builtin.go.
-/

namespace CueBuiltin

/-- Error severity of a Bottom value.  Modelled from the spec: adt error
codes distinguish hard errors from retryable incomplete errors. -/
inductive ErrCode where
  | error
  | incompleteError
deriving DecidableEq

/-- Modelled from the spec: adt.Kind is a bitset over value kinds, with
BottomKind the empty set.  The concrete bit positions are arbitrary. -/
def bottomKind : Nat := 0

/-- Bit for integer values. -/
def intKind : Nat := 1

/-- Bit for string values. -/
def stringKind : Nat := 2

/-- Bit for byte-sequence values. -/
def bytesKind : Nat := 4

/-- Bit for list values. -/
def listKind : Nat := 8

/-- Bit for struct values. -/
def structKind : Nat := 16

/-- Bit for top. -/
def topKind : Nat := 31

/-- The kinds accepted by len (builtin.go: supportedByLen). -/
def supportedByLen : Nat := structKind ||| bytesKind ||| stringKind ||| listKind

/-- Modelled from the spec: feature labels of arcs are Regular, Hidden or
Definition; only Regular labels count toward observable struct length. -/
inductive Label where
  | regular (n : Nat)
  | hidden (n : Nat)
  | definition (n : Nat)
deriving DecidableEq

/-- Whether a label is a regular field label (adt Label.IsRegular). -/
def Label.isRegular : Label → Bool
  | .regular _ => true
  | .hidden _ => false
  | .definition _ => false

mutual

/-- Modelled from the spec: the adt.Value interface as a closed tagged
union.  Numbers are kept in apd sign-magnitude form (negative flag plus a
nonnegative coefficient); markers (ListMarker, StructMarker) are themselves
values because they serve as a Vertex's BaseValue.  `basicType` stands for
a non-concrete value of a given kind (such as the type `string`). -/
inductive Value where
  | bottom (code : ErrCode) (msg : String)
  | num (negative : Bool) (coeff : Nat)
  | str (s : String)
  | bytes (b : List Nat)
  | top
  | listMarker
  | structMarker (needClose : Bool)
  | basicType (k : Nat)
  | conjunction (values : List Value)
  | disjunctionExpr (values : List Disjunct) (hasDefaults : Bool)
  | vertex (v : Vertex)

/-- Modelled from the spec: one alternative of a disjunction, a value
together with its default marker. -/
inductive Disjunct where
  | mk (val : Value) (deflt : Bool)

/-- Modelled from the spec: a graph node with its resolved BaseValue (none
when still unevaluated), its arcs, its attached conjunct constraints and a
finalized flag recording whether the engine has run unify/finalize on it. -/
inductive Vertex where
  | mk (baseValue : Option Value) (arcs : List Arc) (conjuncts : List Value)
      (finalized : Bool)

/-- Modelled from the spec: an arc of a vertex, a labelled child vertex. -/
inductive Arc where
  | mk (label : Label) (value : Vertex)

end

/-- The value of a Disjunct. -/
def Disjunct.val : Disjunct → Value
  | .mk v _ => v

/-- The default marker of a Disjunct. -/
def Disjunct.deflt : Disjunct → Bool
  | .mk _ d => d

/-- The BaseValue of a vertex. -/
def Vertex.baseValue : Vertex → Option Value
  | .mk bv _ _ _ => bv

/-- The arcs of a vertex. -/
def Vertex.arcs : Vertex → List Arc
  | .mk _ a _ _ => a

/-- The conjunct constraints attached to a vertex. -/
def Vertex.conjuncts : Vertex → List Value
  | .mk _ _ c _ => c

/-- Whether the engine has finalized the vertex. -/
def Vertex.finalized : Vertex → Bool
  | .mk _ _ _ f => f

/-- The label of an arc. -/
def Arc.label : Arc → Label
  | .mk l _ => l

/-- The child vertex of an arc. -/
def Arc.value : Arc → Vertex
  | .mk _ v => v

/-- Modelled from the spec: the Kind of a value (adt Value.Kind), the
bitset of kinds the value can take.  A Bottom has the empty kind. -/
def Value.kind : Value → Nat
  | .bottom _ _ => bottomKind
  | .num _ _ => intKind
  | .str _ => stringKind
  | .bytes _ => bytesKind
  | .top => topKind
  | .listMarker => listKind
  | .structMarker _ => structKind
  | .basicType k => k
  | .conjunction _ => topKind
  | .disjunctionExpr _ _ => topKind
  | .vertex (.mk (some .listMarker) _ _ _) => listKind
  | .vertex (.mk (some (.structMarker _)) _ _ _) => structKind
  | .vertex _ => bottomKind

/-- Modelled from the spec: the evaluation context's accumulated-error
state, consulted by builtins via HasErr after argument conversions. -/
structure OpContext where
  errs : List String

/-- Whether any failure has been registered in the context (c.HasErr). -/
def OpContext.hasErr (c : OpContext) : Bool := !c.errs.isEmpty

/-- An integer numeral in apd sign-magnitude form: a negative flag and a
nonnegative coefficient (adt.Num restricted to integral values; the
arguments of the division builtins are of IntKind, so their decimals are
integral and RoundToIntegralValue is the identity on them). -/
structure Num where
  negative : Bool
  coeff : Nat

/-- The signed integer denoted by a sign-magnitude numeral: negate the
coefficient when the negative flag is set (builtin.go lines 210-216). -/
def Num.toSigned (n : Num) : Int :=
  if n.negative then -(n.coeff : Int) else (n.coeff : Int)

/-- Modelled from the spec: the context's numeric conversion (c.Num).  A
numeric value converts to its numeral; any other value is a conversion
failure, which is registered in the context's accumulated-error state and
yields no numeral. -/
def OpContext.num (c : OpContext) (v : Value) (name : String) :
    OpContext × Option Num :=
  match v with
  | .num neg coeff => (c, some (Num.mk neg coeff))
  | _ => (OpContext.mk (c.errs ++ [name]), none)

/-- Modelled from the spec: c.NewNum wrapping a signed integer result back
into sign-magnitude form: if the result is negative, negate the magnitude
and set the negative flag (builtin.go lines 220-225). -/
def newNum (z : Int) : Value :=
  Value.num (decide (z < 0)) z.natAbs

/-- Modelled from the spec: c.NewInt64, wrapping a machine integer as an
Int value. -/
def newInt64 (n : Int) : Value := newNum n

/-- Whether a value is a numeric scalar, i.e. whether the context's
numeric conversion succeeds on it. -/
def Value.isNum : Value → Bool
  | .num _ _ => true
  | _ => false

/-- Modelled from the spec: c.Elems, extraction of a list's element
values; the elements of a list vertex are its arcs. -/
def elems (v : Value) : List Value :=
  match v with
  | .vertex (.mk _ arcs _ _) => arcs.map fun a => Value.vertex a.value
  | _ => []

/-- Modelled from the spec: Go math/big Div implements Euclidean division
(spec section 4.5 step 5: the mod result is always in [0, |y|) and div is
the matching quotient), which is Int.ediv. -/
def bigIntDiv (x y : Int) : Int := Int.ediv x y

/-- Modelled from the spec: Go math/big Mod, the Euclidean remainder,
which is Int.emod. -/
def bigIntMod (x y : Int) : Int := Int.emod x y

/-- Modelled from the spec: Go math/big Quo implements truncated
(toward-zero) division, which is Int.tdiv. -/
def bigIntQuo (x y : Int) : Int := Int.tdiv x y

/-- Modelled from the spec: Go math/big Rem, the truncated remainder,
which is Int.tmod. -/
def bigIntRem (x y : Int) : Int := Int.tmod x y

/-- A builtin descriptor (adt.Builtin): name, per-argument kind sets,
result kind, and the implementation.  The implementation returns the
possibly updated context and an optional value; `none` models the Go
`nil` return of intDivOp after a conversion failure. -/
structure Builtin where
  name : String
  params : List Nat
  result : Nat
  func : OpContext → List Value → OpContext × Option Value

/-- Count of arcs with a Regular label (the loop in lenBuiltin's struct
case). -/
def countRegular (arcs : List Arc) : Nat :=
  (arcs.filter fun a => a.label.isRegular).length

/-- The scalar tail of lenBuiltin's Func: the final type switch over the
(possibly unwrapped) value.  The messages of the two failure cases keep
the static part of the NewErrf format strings; the formatted kind and
value arguments are elided. -/
def lenScalar (v : Value) : Value :=
  match v with
  | .bytes b => newInt64 b.length
  | .str s => newInt64 s.utf8ByteSize
  | x =>
    if x.kind &&& supportedByLen = bottomKind then
      Value.bottom .error "invalid argument type"
    else
      Value.bottom .incompleteError "incomplete argument"

/-- lenBuiltin's Func (builtin.go lines 33-72): dispatch on the vertex's
BaseValue marker; a list yields its element count, a struct the count of
its regular arcs; otherwise the vertex is unwrapped to its base value and
the scalar switch runs. -/
def lenFunc (v : Value) : Value :=
  match v with
  | .vertex (.mk none _ _ _) => Value.bottom .error "unevaluated vertex"
  | .vertex (.mk (some .listMarker) arcs _ _) => newInt64 arcs.length
  | .vertex (.mk (some (.structMarker _)) arcs _ _) => newInt64 (countRegular arcs)
  | .vertex (.mk (some w) _ _ _) => lenScalar w
  | w => lenScalar w

/-- Modelled from the spec: Vertex.IsClosed — a struct vertex is closed
exactly when its struct marker requests closing (close sets
StructMarker.NeedClose). -/
def Vertex.isClosed : Vertex → Bool
  | .mk (some (.structMarker nc)) _ _ _ => nc
  | _ => false

/-- closeBuiltin's Func (builtin.go lines 79-90): a non-vertex argument is
a hard error; an already closed vertex is returned unchanged; otherwise a
shallow copy is returned whose BaseValue is a closing struct marker, all
other fields taken over from the input. -/
def closeFunc (v : Value) : Value :=
  match v with
  | .vertex s =>
    if s.isClosed then
      Value.vertex s
    else
      Value.vertex (Vertex.mk (some (Value.structMarker true)) s.arcs s.conjuncts s.finalized)
  | _ => Value.bottom .error "struct argument must be concrete"

/-- andBuiltin's Func (builtin.go lines 93-108): an empty element list
yields Top; otherwise the elements are collected, in order, into a
Conjunction. -/
def andFunc (v : Value) : Value :=
  match elems v with
  | [] => Value.top
  | a :: l => Value.conjunction (a :: l)

/-- Modelled from the spec: the engine's unify/finalize step (c.Unify with
Finalized) on a vertex, which resolves the vertex's attached constraints
and marks it finalized. -/
def unify (v : Vertex) : Vertex :=
  Vertex.mk v.baseValue v.arcs v.conjuncts true

/-- orBuiltin's Func (builtin.go lines 110-140): every element becomes a
non-default disjunct; an empty list yields a soft incomplete error;
otherwise a fresh anonymous vertex receives the disjunction expression as
its sole conjunct, the engine finalizes it, and the vertex is returned. -/
def orFunc (v : Value) : Value :=
  let d := (elems v).map fun c => Disjunct.mk c false
  match d with
  | [] => Value.bottom .incompleteError "empty list in call to or"
  | _ :: _ =>
    Value.vertex (unify (Vertex.mk none [] [Value.disjunctionExpr d false] false))

/-- intDivOp (builtin.go lines 195-227): convert both arguments, in order,
through the context's numeric conversion; if any failure has been
registered, return no value at all (Go nil); a zero divisor is a hard
division-by-zero error; otherwise apply the integer function to the
sign-adjusted operands and wrap the result back in sign-magnitude form.
The apd RoundToIntegralValue step is the identity here because both
arguments are integral (IntKind). -/
def intDivOp (c : OpContext) (fn : Int → Int → Int) (name : String)
    (args : List Value) : OpContext × Option Value :=
  let r1 := c.num (args.getD 0 Value.top) name
  let r2 := r1.1.num (args.getD 1 Value.top) name
  if r2.1.hasErr then (r2.1, none)
  else
    match r1.2, r2.2 with
    | some a, some b =>
      if b.coeff = 0 then
        (r2.1, some (Value.bottom .error "division by zero"))
      else
        (r2.1, some (newNum (fn a.toSigned b.toSigned)))
    | _, _ => (r2.1, none)

/-- The len builtin descriptor. -/
def lenBuiltin : Builtin :=
  Builtin.mk "len" [supportedByLen] intKind
    (fun c args => (c, some (lenFunc (args.getD 0 Value.top))))

/-- The close builtin descriptor. -/
def closeBuiltin : Builtin :=
  Builtin.mk "close" [structKind] structKind
    (fun c args => (c, some (closeFunc (args.getD 0 Value.top))))

/-- The and builtin descriptor. -/
def andBuiltin : Builtin :=
  Builtin.mk "and" [listKind] intKind
    (fun c args => (c, some (andFunc (args.getD 0 Value.top))))

/-- The or builtin descriptor. -/
def orBuiltin : Builtin :=
  Builtin.mk "or" [listKind] intKind
    (fun c args => (c, some (orFunc (args.getD 0 Value.top))))

/-- The div builtin descriptor (Euclidean quotient). -/
def divBuiltin : Builtin :=
  Builtin.mk "div" [intKind, intKind] intKind
    (fun c args => intDivOp c bigIntDiv "argument to div builtin" args)

/-- The mod builtin descriptor (Euclidean remainder). -/
def modBuiltin : Builtin :=
  Builtin.mk "mod" [intKind, intKind] intKind
    (fun c args => intDivOp c bigIntMod "argument to mod builtin" args)

/-- The quo builtin descriptor (truncated quotient). -/
def quoBuiltin : Builtin :=
  Builtin.mk "quo" [intKind, intKind] intKind
    (fun c args => intDivOp c bigIntQuo "argument to quo builtin" args)

/-- The rem builtin descriptor (truncated remainder). -/
def remBuiltin : Builtin :=
  Builtin.mk "rem" [intKind, intKind] intKind
    (fun c args => intDivOp c bigIntRem "argument to rem builtin" args)

end CueBuiltin

namespace CueBuiltin

lemma toSigned_mk_if (b : Bool) (c : Nat) :
    Num.toSigned (Num.mk b c) = if b then -(c : Int) else (c : Int) := by
  cases b <;> rfl

lemma toSigned_newNum_aux (z : Int) :
    Num.toSigned (Num.mk (decide (z < 0)) z.natAbs) = z := by
  rw [toSigned_mk_if]
  by_cases h : z < 0
  · rw [if_pos (by simpa using h)]
    omega
  · rw [if_neg (by simpa using h)]
    omega

lemma intDivOp_eval (fn : Int → Int → Int) (name : String) (x y : Int)
    (hy : y ≠ 0) :
    intDivOp (OpContext.mk []) fn name [newNum x, newNum y] =
      (OpContext.mk [], some (newNum (fn x y))) := by
  have hco : ¬ (y.natAbs = 0) := by simpa using hy
  simp [intDivOp, newNum, OpContext.num, OpContext.hasErr, hco,
    toSigned_newNum_aux]

lemma tmod_nonpos_of_nonpos (x y : Int) (h : x ≤ 0) : Int.tmod x y ≤ 0 := by
  cases x with
  | ofNat m =>
    have h2 : (m : Int) ≤ 0 := h
    have hm : m = 0 := by omega
    subst hm
    simp [Int.zero_tmod]
  | negSucc m =>
    cases y with
    | ofNat n =>
      show -(((m : Int) + 1) % (n : Int)) ≤ 0
      have h2 : ((m : Int) + 1) % (n : Int) = ((m + 1 : Nat) % n : Nat) := by
        push_cast
        ring_nf
      omega
    | negSucc n =>
      show -(((m : Int) + 1) % ((n : Int) + 1)) ≤ 0
      have h2 : ((m : Int) + 1) % ((n : Int) + 1) = ((m + 1 : Nat) % (n + 1) : Nat) := by
        push_cast
        ring_nf
      omega

lemma tmod_sign (x y : Int) :
    Int.tmod x y = 0 ∨ Int.sign (Int.tmod x y) = Int.sign x := by
  rcases lt_trichotomy x 0 with hx | hx | hx
  · have h1 : Int.tmod x y ≤ 0 := tmod_nonpos_of_nonpos x y (le_of_lt hx)
    rcases eq_or_lt_of_le h1 with h2 | h2
    · exact Or.inl h2
    · exact Or.inr (by rw [Int.sign_eq_neg_one_of_neg h2, Int.sign_eq_neg_one_of_neg hx])
  · subst hx
    exact Or.inl (Int.zero_tmod y)
  · have h1 : 0 ≤ Int.tmod x y := Int.tmod_nonneg y (le_of_lt hx)
    rcases eq_or_lt_of_le h1 with h2 | h2
    · exact Or.inl h2.symm
    · exact Or.inr (by rw [Int.sign_eq_one_of_pos h2, Int.sign_eq_one_of_pos hx])

/-- Claim C1: for every pair of integers x, y with y nonzero, the div and
mod builtins implement Euclidean division: both evaluate to the wrapped
Euclidean quotient and remainder, div(x,y)*y + mod(x,y) = x, and mod(x,y)
is always in [0, |y|). -/
theorem div_mod_euclidean (x y : Int) (hy : y ≠ 0) :
    (divBuiltin.func (OpContext.mk []) [newNum x, newNum y]).2 =
      some (newNum (bigIntDiv x y)) ∧
    (modBuiltin.func (OpContext.mk []) [newNum x, newNum y]).2 =
      some (newNum (bigIntMod x y)) ∧
    bigIntDiv x y * y + bigIntMod x y = x ∧
    0 ≤ bigIntMod x y ∧ bigIntMod x y < |y| := by
  refine ⟨?_, ?_, ?_, Int.emod_nonneg x hy, Int.emod_lt x hy⟩
  · simp only [divBuiltin]
    rw [intDivOp_eval bigIntDiv "argument to div builtin" x y hy]
  · simp only [modBuiltin]
    rw [intDivOp_eval bigIntMod "argument to mod builtin" x y hy]
  · unfold bigIntDiv bigIntMod
    rw [Int.mul_comm]
    exact Int.ediv_add_emod x y

/-- Witness for C1 at x = -7, y = 2 (div = -4, mod = 1). -/
theorem div_mod_euclidean_witness :
    ((2 : Int) ≠ 0) ∧
    ((divBuiltin.func (OpContext.mk []) [newNum (-7), newNum 2]).2 =
        some (newNum (bigIntDiv (-7) 2)) ∧
      (modBuiltin.func (OpContext.mk []) [newNum (-7), newNum 2]).2 =
        some (newNum (bigIntMod (-7) 2)) ∧
      bigIntDiv (-7) 2 * 2 + bigIntMod (-7) 2 = -7 ∧
      0 ≤ bigIntMod (-7) 2 ∧ bigIntMod (-7) 2 < |(2 : Int)|) :=
  ⟨by decide, div_mod_euclidean (-7) 2 (by decide)⟩

/-- Claim C2: for every pair of integers x, y with y nonzero, the quo and
rem builtins implement truncated (toward-zero) division: both evaluate to
the wrapped truncated quotient and remainder, quo(x,y)*y + rem(x,y) = x,
and rem(x,y) is zero or has the sign of the dividend x. -/
theorem quo_rem_truncated (x y : Int) (hy : y ≠ 0) :
    (quoBuiltin.func (OpContext.mk []) [newNum x, newNum y]).2 =
      some (newNum (bigIntQuo x y)) ∧
    (remBuiltin.func (OpContext.mk []) [newNum x, newNum y]).2 =
      some (newNum (bigIntRem x y)) ∧
    bigIntQuo x y * y + bigIntRem x y = x ∧
    (bigIntRem x y = 0 ∨ Int.sign (bigIntRem x y) = Int.sign x) := by
  refine ⟨?_, ?_, ?_, tmod_sign x y⟩
  · simp only [quoBuiltin]
    rw [intDivOp_eval bigIntQuo "argument to quo builtin" x y hy]
  · simp only [remBuiltin]
    rw [intDivOp_eval bigIntRem "argument to rem builtin" x y hy]
  · unfold bigIntQuo bigIntRem
    rw [Int.mul_comm]
    exact Int.tdiv_add_tmod x y

/-- Witness for C2 at x = 7, y = -2 (quo = -3, rem = 1). -/
theorem quo_rem_truncated_witness :
    ((-2 : Int) ≠ 0) ∧
    ((quoBuiltin.func (OpContext.mk []) [newNum 7, newNum (-2)]).2 =
        some (newNum (bigIntQuo 7 (-2))) ∧
      (remBuiltin.func (OpContext.mk []) [newNum 7, newNum (-2)]).2 =
        some (newNum (bigIntRem 7 (-2))) ∧
      bigIntQuo 7 (-2) * (-2) + bigIntRem 7 (-2) = 7 ∧
      (bigIntRem 7 (-2) = 0 ∨ Int.sign (bigIntRem 7 (-2)) = Int.sign 7)) :=
  ⟨by decide, quo_rem_truncated 7 (-2) (by decide)⟩

/-- Claim C3: whenever the divisor argument is (after rounding, which is
the identity on these integral arguments) exactly zero, each of the four
division builtins returns a Bottom with the hard Error code and message
"division by zero", and the result does not depend on the supplied integer
division function, i.e. no integer division is performed. -/
theorem div_by_zero_hard_error (fn : Int → Int → Int) (name : String) (x : Int) :
    intDivOp (OpContext.mk []) fn name [newNum x, newNum 0] =
      (OpContext.mk [], some (Value.bottom .error "division by zero")) ∧
    (divBuiltin.func (OpContext.mk []) [newNum x, newNum 0]).2 =
      some (Value.bottom .error "division by zero") ∧
    (modBuiltin.func (OpContext.mk []) [newNum x, newNum 0]).2 =
      some (Value.bottom .error "division by zero") ∧
    (quoBuiltin.func (OpContext.mk []) [newNum x, newNum 0]).2 =
      some (Value.bottom .error "division by zero") ∧
    (remBuiltin.func (OpContext.mk []) [newNum x, newNum 0]).2 =
      some (Value.bottom .error "division by zero") :=
  ⟨rfl, rfl, rfl, rfl, rfl⟩

/-- Claim C4: len of a list vertex is its element count, len of a struct
vertex counts exactly the arcs with a Regular label (appending hidden and
definition arcs does not change the count), and len of a byte sequence of
length k is k. -/
theorem len_counts (arcs : List Arc) (conj : List Value) (fin : Bool)
    (b : Bool) (n : Nat) (w : Vertex) (bs : List Nat) :
    lenFunc (Value.vertex (Vertex.mk (some Value.listMarker) arcs conj fin)) =
      newInt64 arcs.length ∧
    lenFunc (Value.vertex (Vertex.mk (some (Value.structMarker b)) arcs conj fin)) =
      newInt64 (countRegular arcs) ∧
    countRegular (arcs ++ [Arc.mk (Label.hidden n) w, Arc.mk (Label.definition n) w]) =
      countRegular arcs ∧
    lenFunc (Value.bytes bs) = newInt64 bs.length := by
  refine ⟨rfl, rfl, ?_, rfl⟩
  simp [countRegular, List.filter_append, Arc.label, Label.isRegular]

end CueBuiltin

namespace CueBuiltin

/-- Claim C5: a len argument that is neither a list/struct node nor a
Bytes/String scalar yields a hard error exactly when its kind does not
intersect the accepted kind set, and a soft IncompleteError when its kind
intersects the accepted set but the value is not yet concrete; the same
holds when such a value sits as the base value of a vertex. -/
theorem len_error_severity (k : Nat) (arcs : List Arc) (conj : List Value) (fin : Bool) :
    (k &&& supportedByLen = bottomKind →
      lenFunc (Value.basicType k) = Value.bottom .error "invalid argument type" ∧
      lenFunc (Value.vertex (Vertex.mk (some (Value.basicType k)) arcs conj fin)) =
        Value.bottom .error "invalid argument type") ∧
    (k &&& supportedByLen ≠ bottomKind →
      lenFunc (Value.basicType k) = Value.bottom .incompleteError "incomplete argument" ∧
      lenFunc (Value.vertex (Vertex.mk (some (Value.basicType k)) arcs conj fin)) =
        Value.bottom .incompleteError "incomplete argument") := by
  constructor <;> intro h <;>
    simp [lenFunc, lenScalar, Value.kind, h]

/-- Witness for C5: an Int-kinded value is a hard invalid-argument error,
a non-concrete String-kinded value is a soft incomplete error. -/
theorem len_error_severity_witness :
    (intKind &&& supportedByLen = bottomKind ∧
      lenFunc (Value.basicType intKind) = Value.bottom .error "invalid argument type" ∧
      lenFunc (Value.vertex (Vertex.mk (some (Value.basicType intKind)) [] [] false)) =
        Value.bottom .error "invalid argument type") ∧
    (stringKind &&& supportedByLen ≠ bottomKind ∧
      lenFunc (Value.basicType stringKind) = Value.bottom .incompleteError "incomplete argument" ∧
      lenFunc (Value.vertex (Vertex.mk (some (Value.basicType stringKind)) [] [] false)) =
        Value.bottom .incompleteError "incomplete argument") :=
  ⟨⟨by decide, (len_error_severity intKind [] [] false).1 (by decide)⟩,
   ⟨by decide, (len_error_severity stringKind [] [] false).2 (by decide)⟩⟩

lemma closeFunc_closed (s : Vertex) (h : s.isClosed = true) :
    closeFunc (Value.vertex s) = Value.vertex s := by
  simp only [closeFunc]
  rw [if_pos h]

lemma closeFunc_not_closed (s : Vertex) (h : s.isClosed = false) :
    closeFunc (Value.vertex s) =
      Value.vertex (Vertex.mk (some (Value.structMarker true)) s.arcs s.conjuncts s.finalized) := by
  simp only [closeFunc]
  rw [if_neg (by simp [h])]

/-- Claim C6: close is idempotent on struct vertices, and an already
closed vertex is returned unchanged, the very same value. -/
theorem close_idempotent (s : Vertex) :
    closeFunc (closeFunc (Value.vertex s)) = closeFunc (Value.vertex s) ∧
    (s.isClosed = true → closeFunc (Value.vertex s) = Value.vertex s) := by
  constructor
  · by_cases h : s.isClosed = true
    · rw [closeFunc_closed s h]
      exact closeFunc_closed s h
    · have hf : s.isClosed = false := by simpa using h
      rw [closeFunc_not_closed s hf]
      exact closeFunc_closed _ rfl
  · exact closeFunc_closed s

/-- Witness for C6 on a concrete closed struct vertex. -/
theorem close_idempotent_witness :
    (Vertex.mk (some (Value.structMarker true)) [] [] false).isClosed = true ∧
    closeFunc (Value.vertex (Vertex.mk (some (Value.structMarker true)) [] [] false)) =
      Value.vertex (Vertex.mk (some (Value.structMarker true)) [] [] false) :=
  ⟨rfl, (close_idempotent (Vertex.mk (some (Value.structMarker true)) [] [] false)).2 rfl⟩

/-- Claim C7: in this purely functional embedding the input of close is
never mutated; what remains to prove is the copy characterization: when
the input vertex is not yet closed, the result is a shallow copy in which
only the base-value closedness marker is replaced, while the arcs, the
conjuncts and the finalized flag are shared with (equal to) the input. -/
theorem close_shallow_copy (s : Vertex) (h : s.isClosed = false) :
    closeFunc (Value.vertex s) =
      Value.vertex (Vertex.mk (some (Value.structMarker true)) s.arcs s.conjuncts s.finalized) ∧
    ∀ r : Vertex, closeFunc (Value.vertex s) = Value.vertex r →
      r.baseValue = some (Value.structMarker true) ∧ r.arcs = s.arcs ∧
      r.conjuncts = s.conjuncts ∧ r.finalized = s.finalized := by
  have h1 := closeFunc_not_closed s h
  refine ⟨h1, ?_⟩
  intro r hr
  rw [h1] at hr
  injection hr with h2
  subst h2
  exact ⟨rfl, rfl, rfl, rfl⟩

/-- Witness for C7 on a concrete open struct vertex with one arc. -/
theorem close_shallow_copy_witness :
    (Vertex.mk (some (Value.structMarker false)) [Arc.mk (Label.regular 0) (Vertex.mk none [] [] false)] [] false).isClosed = false ∧
    (closeFunc (Value.vertex (Vertex.mk (some (Value.structMarker false)) [Arc.mk (Label.regular 0) (Vertex.mk none [] [] false)] [] false)) =
      Value.vertex (Vertex.mk (some (Value.structMarker true))
        (Vertex.mk (some (Value.structMarker false)) [Arc.mk (Label.regular 0) (Vertex.mk none [] [] false)] [] false).arcs
        (Vertex.mk (some (Value.structMarker false)) [Arc.mk (Label.regular 0) (Vertex.mk none [] [] false)] [] false).conjuncts
        (Vertex.mk (some (Value.structMarker false)) [Arc.mk (Label.regular 0) (Vertex.mk none [] [] false)] [] false).finalized) ∧
      ∀ r : Vertex, closeFunc (Value.vertex (Vertex.mk (some (Value.structMarker false)) [Arc.mk (Label.regular 0) (Vertex.mk none [] [] false)] [] false)) = Value.vertex r →
        r.baseValue = some (Value.structMarker true) ∧
        r.arcs = (Vertex.mk (some (Value.structMarker false)) [Arc.mk (Label.regular 0) (Vertex.mk none [] [] false)] [] false).arcs ∧
        r.conjuncts = (Vertex.mk (some (Value.structMarker false)) [Arc.mk (Label.regular 0) (Vertex.mk none [] [] false)] [] false).conjuncts ∧
        r.finalized = (Vertex.mk (some (Value.structMarker false)) [Arc.mk (Label.regular 0) (Vertex.mk none [] [] false)] [] false).finalized) :=
  ⟨rfl, close_shallow_copy (Vertex.mk (some (Value.structMarker false)) [Arc.mk (Label.regular 0) (Vertex.mk none [] [] false)] [] false) rfl⟩

/-- Claim C8: and on an empty element list returns Top, the conjunction
identity; on a non-empty list it returns a Conjunction whose terms are
exactly the elements, in order, as an unevaluated expression. -/
theorem and_fold (v : Value) :
    (elems v = [] → andFunc v = Value.top) ∧
    (∀ a l, elems v = a :: l → andFunc v = Value.conjunction (a :: l)) := by
  constructor
  · intro h
    simp [andFunc, h]
  · intro a l h
    simp [andFunc, h]

/-- Witness for C8 on an empty list vertex and a two-element list vertex. -/
theorem and_fold_witness :
    (elems (Value.vertex (Vertex.mk (some Value.listMarker) [] [] false)) = [] ∧
      andFunc (Value.vertex (Vertex.mk (some Value.listMarker) [] [] false)) = Value.top) ∧
    (elems (Value.vertex (Vertex.mk (some Value.listMarker)
        [Arc.mk (Label.regular 0) (Vertex.mk (some (Value.num false 1)) [] [] false),
         Arc.mk (Label.regular 1) (Vertex.mk (some (Value.num false 2)) [] [] false)] [] false)) =
      Value.vertex (Vertex.mk (some (Value.num false 1)) [] [] false) ::
        [Value.vertex (Vertex.mk (some (Value.num false 2)) [] [] false)] ∧
      andFunc (Value.vertex (Vertex.mk (some Value.listMarker)
        [Arc.mk (Label.regular 0) (Vertex.mk (some (Value.num false 1)) [] [] false),
         Arc.mk (Label.regular 1) (Vertex.mk (some (Value.num false 2)) [] [] false)] [] false)) =
      Value.conjunction (Value.vertex (Vertex.mk (some (Value.num false 1)) [] [] false) ::
        [Value.vertex (Vertex.mk (some (Value.num false 2)) [] [] false)])) :=
  ⟨⟨rfl, (and_fold (Value.vertex (Vertex.mk (some Value.listMarker) [] [] false))).1 rfl⟩,
   ⟨rfl, (and_fold (Value.vertex (Vertex.mk (some Value.listMarker)
        [Arc.mk (Label.regular 0) (Vertex.mk (some (Value.num false 1)) [] [] false),
         Arc.mk (Label.regular 1) (Vertex.mk (some (Value.num false 2)) [] [] false)] [] false))).2
      (Value.vertex (Vertex.mk (some (Value.num false 1)) [] [] false))
      [Value.vertex (Vertex.mk (some (Value.num false 2)) [] [] false)] rfl⟩⟩

/-- Claim C9: or on an empty element list returns a Bottom with the soft
IncompleteError code and message "empty list in call to or"; on a
non-empty list it builds a disjunction in which every alternative is
marked non-default, attaches it as the sole conjunct of a fresh anonymous
vertex, runs the engine's unify/finalize step on that vertex, and returns
the finalized vertex rather than a bare unevaluated expression. -/
theorem or_soft_empty_eager_finalize (v : Value) :
    (elems v = [] → orFunc v = Value.bottom .incompleteError "empty list in call to or") ∧
    (∀ a l, elems v = a :: l →
      orFunc v = Value.vertex (unify (Vertex.mk none []
        [Value.disjunctionExpr ((a :: l).map fun c => Disjunct.mk c false) false] false)) ∧
      (∀ d, d ∈ (a :: l).map (fun c => Disjunct.mk c false) → d.deflt = false) ∧
      ∃ w : Vertex, orFunc v = Value.vertex w ∧ w.finalized = true ∧
        w.conjuncts = [Value.disjunctionExpr ((a :: l).map fun c => Disjunct.mk c false) false]) := by
  constructor
  · intro h
    simp [orFunc, h]
  · intro a l h
    refine ⟨by simp [orFunc, h], ?_, ?_⟩
    · intro d hd
      obtain ⟨c, hc, hcd⟩ := List.mem_map.mp hd
      rw [← hcd]
      rfl
    · refine ⟨unify (Vertex.mk none []
        [Value.disjunctionExpr ((a :: l).map fun c => Disjunct.mk c false) false] false),
        by simp [orFunc, h], rfl, rfl⟩

/-- Witness for C9 on an empty list vertex and a two-element list vertex. -/
theorem or_soft_empty_eager_finalize_witness :
    (elems (Value.vertex (Vertex.mk (some Value.listMarker) [] [] false)) = [] ∧
      orFunc (Value.vertex (Vertex.mk (some Value.listMarker) [] [] false)) =
        Value.bottom .incompleteError "empty list in call to or") ∧
    (elems (Value.vertex (Vertex.mk (some Value.listMarker)
        [Arc.mk (Label.regular 0) (Vertex.mk (some (Value.num false 1)) [] [] false),
         Arc.mk (Label.regular 1) (Vertex.mk (some (Value.num false 2)) [] [] false)] [] false)) =
      Value.vertex (Vertex.mk (some (Value.num false 1)) [] [] false) ::
        [Value.vertex (Vertex.mk (some (Value.num false 2)) [] [] false)] ∧
      (orFunc (Value.vertex (Vertex.mk (some Value.listMarker)
          [Arc.mk (Label.regular 0) (Vertex.mk (some (Value.num false 1)) [] [] false),
           Arc.mk (Label.regular 1) (Vertex.mk (some (Value.num false 2)) [] [] false)] [] false)) =
        Value.vertex (unify (Vertex.mk none []
          [Value.disjunctionExpr ((Value.vertex (Vertex.mk (some (Value.num false 1)) [] [] false) ::
            [Value.vertex (Vertex.mk (some (Value.num false 2)) [] [] false)]).map
              fun c => Disjunct.mk c false) false] false)) ∧
      (∀ d, d ∈ (Value.vertex (Vertex.mk (some (Value.num false 1)) [] [] false) ::
          [Value.vertex (Vertex.mk (some (Value.num false 2)) [] [] false)]).map
            (fun c => Disjunct.mk c false) → d.deflt = false) ∧
      ∃ w : Vertex, orFunc (Value.vertex (Vertex.mk (some Value.listMarker)
          [Arc.mk (Label.regular 0) (Vertex.mk (some (Value.num false 1)) [] [] false),
           Arc.mk (Label.regular 1) (Vertex.mk (some (Value.num false 2)) [] [] false)] [] false)) =
          Value.vertex w ∧ w.finalized = true ∧
        w.conjuncts = [Value.disjunctionExpr ((Value.vertex (Vertex.mk (some (Value.num false 1)) [] [] false) ::
          [Value.vertex (Vertex.mk (some (Value.num false 2)) [] [] false)]).map
            fun c => Disjunct.mk c false) false])) :=
  ⟨⟨rfl, (or_soft_empty_eager_finalize (Value.vertex (Vertex.mk (some Value.listMarker) [] [] false))).1 rfl⟩,
   ⟨rfl, (or_soft_empty_eager_finalize (Value.vertex (Vertex.mk (some Value.listMarker)
        [Arc.mk (Label.regular 0) (Vertex.mk (some (Value.num false 1)) [] [] false),
         Arc.mk (Label.regular 1) (Vertex.mk (some (Value.num false 2)) [] [] false)] [] false))).2
      (Value.vertex (Vertex.mk (some (Value.num false 1)) [] [] false))
      [Value.vertex (Vertex.mk (some (Value.num false 2)) [] [] false)] rfl⟩⟩

lemma num_conv_fail (c : OpContext) (v : Value) (name : String) (h : v.isNum = false) :
    c.num v name = (OpContext.mk (c.errs ++ [name]), none) := by
  cases v <;> simp_all [Value.isNum, OpContext.num]

lemma num_conv_ok_ctx (c : OpContext) (v : Value) (name : String) (h : v.isNum = true) :
    (c.num v name).1 = c := by
  cases v <;> simp_all [Value.isNum, OpContext.num]

/-- Claim C10: when the numeric conversion of either argument of a
division-family builtin fails, the builtin returns no value at all (the
Go nil), and the conversion of the second argument is still attempted
before the failure check, so a failure of either side is registered in
the context's accumulated-error state: a second-argument failure is
recorded even when the first argument already failed, and a failure of
both arguments records both. -/
theorem intDivOp_conv_failure (fn : Int → Int → Int) (name : String) (v1 v2 : Value)
    (h : v1.isNum = false ∨ v2.isNum = false) :
    (intDivOp (OpContext.mk []) fn name [v1, v2]).2 = none ∧
    (v2.isNum = false → name ∈ (intDivOp (OpContext.mk []) fn name [v1, v2]).1.errs) ∧
    (v1.isNum = false → v2.isNum = false →
      (intDivOp (OpContext.mk []) fn name [v1, v2]).1.errs = [name, name]) := by
  cases hv1 : v1.isNum <;> cases hv2 : v2.isNum
  · rw [show intDivOp (OpContext.mk []) fn name [v1, v2] = (OpContext.mk [name, name], none) by
      simp only [intDivOp, List.getD_cons_zero, List.getD_cons_succ]
      rw [num_conv_fail _ _ _ hv1]
      rw [num_conv_fail _ _ _ hv2]
      simp [OpContext.hasErr]]
    simp
  · rw [show intDivOp (OpContext.mk []) fn name [v1, v2] = (OpContext.mk [name], none) by
      simp only [intDivOp, List.getD_cons_zero, List.getD_cons_succ]
      rw [num_conv_fail _ _ _ hv1]
      rw [num_conv_ok_ctx _ _ _ hv2]
      simp [OpContext.hasErr]]
    simp [hv2]
  · rw [show intDivOp (OpContext.mk []) fn name [v1, v2] = (OpContext.mk [name], none) by
      simp only [intDivOp, List.getD_cons_zero, List.getD_cons_succ]
      rw [num_conv_ok_ctx _ _ _ hv1]
      rw [num_conv_fail _ _ _ hv2]
      simp [OpContext.hasErr]]
    simp [hv1]
  · simp [hv1, hv2] at h

/-- Witness for C10: a string first argument and a top second argument,
neither of which converts to a number. -/
theorem intDivOp_conv_failure_witness :
    ((Value.str "a").isNum = false ∨ Value.top.isNum = false) ∧
    ((intDivOp (OpContext.mk []) bigIntDiv "argument to div builtin" [Value.str "a", Value.top]).2 = none ∧
      (Value.top.isNum = false →
        "argument to div builtin" ∈
          (intDivOp (OpContext.mk []) bigIntDiv "argument to div builtin" [Value.str "a", Value.top]).1.errs) ∧
      ((Value.str "a").isNum = false → Value.top.isNum = false →
        (intDivOp (OpContext.mk []) bigIntDiv "argument to div builtin" [Value.str "a", Value.top]).1.errs =
          ["argument to div builtin", "argument to div builtin"])) :=
  ⟨Or.inl rfl,
   intDivOp_conv_failure bigIntDiv "argument to div builtin" (Value.str "a") Value.top (Or.inl rfl)⟩

end CueBuiltin
